import Mathlib

/-!
# Verification of the Resonance v2 application loop

A shallow embedding of `src/projects/Resonance v2/src/Application/Application.cpp`:
the layered per-frame dispatch pipeline, the scene-transition state machine, the
timing update, the render-output carry rule, the settings merge and scene loading.

Conventions of the embedding:
* `Framebuffer::Sptr` and other nullable shared pointers become `Option _`
  (with `ℕ` standing in for opaque handles / object identity).
* The `AppLayerFunctions` bitmask becomes the list of flags that are set;
  `*(layer->Overrides & AppLayerFunctions::X)` becomes `layer.Overrides.contains X`.
* `float` timing arithmetic is modelled exactly over `ℚ`.
* Calls out to layers and external subsystems are recorded as events (`Ev`)
  in the order the source performs them.
-/

namespace Resonance

/-- The lifecycle hooks a layer may override (the `AppLayerFunctions` flag enum). -/
inductive AppLayerFunctions where
  | OnAppLoad
  | OnAppUnload
  | OnUpdate
  | OnLateUpdate
  | OnPreRender
  | OnRender
  | OnPostRender
  | OnSceneLoad
  | OnSceneUnload
  | OnWindowResize
deriving DecidableEq, Repr

/-- A `Gameplay::Scene` as far as the application loop observes it:
an identity and the `IsPlaying` flag.  Entity contents are opaque here. -/
structure Scene where
  sid : ℕ
  IsPlaying : Bool
deriving DecidableEq, Repr

/-- Lightweight JSON values (`nlohmann::json`), enough for the settings logic:
null, booleans, integers, strings and ordered objects. -/
inductive Json where
  | null : Json
  | b : Bool → Json
  | num : ℤ → Json
  | str : String → Json
  | obj : List (String × Json) → Json

/-- An `ApplicationLayer`: enabled flag, override bitmask, name, default config
fragment, and the outputs its `GetRenderOutput` / `GetPostRenderOutput`
return this frame (`none` = `nullptr`). -/
structure ApplicationLayer where
  Name : String
  Enabled : Bool
  Overrides : List AppLayerFunctions
  renderOutput : Option ℕ
  postRenderOutput : Option ℕ
  defaultConfig : Json

/-- The `Timing` singleton's fields, over exact rationals. -/
structure Timing where
  _timeScale : ℚ
  _deltaTime : ℚ
  _unscaledDeltaTime : ℚ
  _timeSinceAppLoad : ℚ
  _unscaledTimeSinceAppLoad : ℚ
  _timeSinceSceneLoad : ℚ
  _unscaledTimeSinceSceneLoad : ℚ
deriving DecidableEq, Repr

/-- Observable calls the application makes, in program order.  Hook events
carry the index of the layer in the registration list. -/
inductive Ev where
  | appLoadHook (i : ℕ)
  | appUnloadHook (i : ℕ)
  | updateHook (i : ℕ)
  | lateUpdateHook (i : ℕ)
  | preRenderHook (i : ℕ)
  | renderHook (i : ℕ)
  | postRenderHook (i : ℕ)
  | sceneLoadHook (i : ℕ)
  | sceneUnloadHook (i : ℕ)
  | windowResizeHook (i : ℕ)
  | assignCurrentScene
  | sceneAwake
  | setScenePlaying
  | clearTargetScene
  | clearRunningFlag
  | timingUpdate
  | blit (dstRect : ℕ × ℕ × ℕ × ℕ)
  | inputEndFrame
  | imguiEndFrame
  | swapBuffers
deriving DecidableEq, Repr

/-- Mutable state of the `Application` singleton that the claims observe. -/
structure AppState where
  _isRunning : Bool
  _isEditor : Bool
  _currentScene : Option Scene
  _targetScene : Option Scene
  _layers : List ApplicationLayer
  timing : Timing
  _renderOutput : Option ℕ
  _windowSize : ℕ × ℕ
  _primaryViewport : ℕ × ℕ × ℕ × ℕ
  isEscapePressed : Bool
  isGamePaused : Bool
  isGameStarted : Bool
  manifestsLoaded : List String

/-- The guard every dispatcher uses:
`layer->Enabled && *(layer->Overrides & AppLayerFunctions::phase)`. -/
def layerWants (layer : ApplicationLayer) (phase : AppLayerFunctions) : Bool :=
  layer.Enabled && layer.Overrides.contains phase

/-- The shape of every forward dispatch loop in `Application.cpp`
(`for (const auto& layer : _layers) if (guard) layer->Hook();`),
recording the hook invocations in order. -/
def dispatchForward (layers : List ApplicationLayer) (phase : AppLayerFunctions)
    (mk : ℕ → Ev) : List Ev :=
  layers.enum.foldl
    (fun calls li => if layerWants li.2 phase then calls ++ [mk li.1] else calls) []

/-- The shape of every reverse dispatch loop
(`for (auto it = _layers.crbegin(); it != _layers.crend(); it++) ...`). -/
def dispatchReverse (layers : List ApplicationLayer) (phase : AppLayerFunctions)
    (mk : ℕ → Ev) : List Ev :=
  layers.enum.reverse.foldl
    (fun calls li => if layerWants li.2 phase then calls ++ [mk li.1] else calls) []

/-- `Application::_Load`, restricted to its layer loop: dispatch `OnAppLoad`
forward.  (The trailing `glfwSwapInterval` / `InputEngine::Init` /
`ImGuiHelper::Init` / `GuiBatcher::SetWindowSize` calls touch only
external subsystems.) -/
def Application._Load (layers : List ApplicationLayer) : List Ev :=
  dispatchForward layers .OnAppLoad Ev.appLoadHook

/-- `Application::_Update`: dispatch `OnUpdate` forward. -/
def Application._Update (layers : List ApplicationLayer) : List Ev :=
  dispatchForward layers .OnUpdate Ev.updateHook

/-- `Application::_LateUpdate`: dispatch `OnLateUpdate` forward. -/
def Application._LateUpdate (layers : List ApplicationLayer) : List Ev :=
  dispatchForward layers .OnLateUpdate Ev.lateUpdateHook

/-- `Application::_PreRender`, restricted to its layer loop: dispatch
`OnPreRender` forward (the preceding `glViewport`/`glScissor`/`glClear`
calls go to the GL backend). -/
def Application._PreRender (layers : List ApplicationLayer) : List Ev :=
  dispatchForward layers .OnPreRender Ev.preRenderHook

/-- `Application::_RenderScene`: dispatch `OnRender` forward while carrying
`result = layerResult != nullptr ? layerResult : result`, starting from
`nullptr`; returns the hook trace and the final `result` stored into
`_renderOutput`. -/
def Application._RenderScene (layers : List ApplicationLayer) :
    List Ev × Option ℕ :=
  layers.enum.foldl
    (fun acc li =>
      if layerWants li.2 .OnRender then
        (acc.1 ++ [Ev.renderHook li.1],
         match li.2.renderOutput with
         | some r => some r
         | none => acc.2)
      else acc)
    ([], none)

/-- `Application::_PostRender`: dispatch `OnPostRender` in reverse while
carrying `_renderOutput = layerResult != nullptr ? layerResult : _renderOutput`,
then, if the surviving `_renderOutput` is non-null, blit it to the default
framebuffer over the primary-viewport rectangle
(`viewportMinMax = {x, y, x+z, y+w}`).  Returns the hook trace, the new
`_renderOutput`, and the blit destination (`none` = no blit). -/
def Application._PostRenderLoop (layers : List ApplicationLayer)
    (renderOutput : Option ℕ) : List Ev × Option ℕ :=
  layers.enum.reverse.foldl
    (fun (acc : List Ev × Option ℕ) li =>
      if layerWants li.2 .OnPostRender then
        (acc.1 ++ [Ev.postRenderHook li.1],
         match li.2.postRenderOutput with
         | some x => some x
         | none => acc.2)
      else acc)
    ([], renderOutput)

/-- `Application::_PostRender` assembled: run the reverse loop, then, if the
surviving `_renderOutput` is non-null, blit it to the default framebuffer
over the primary-viewport rectangle (`viewportMinMax = {x, y, x+z, y+w}`).
Returns the hook trace, the new `_renderOutput`, and the blit destination
(`none` = no blit). -/
def Application._PostRender (layers : List ApplicationLayer)
    (renderOutput : Option ℕ) (viewport : ℕ × ℕ × ℕ × ℕ) :
    List Ev × Option ℕ × Option (ℕ × ℕ × ℕ × ℕ) :=
  ((Application._PostRenderLoop layers renderOutput).1,
   (Application._PostRenderLoop layers renderOutput).2,
   match (Application._PostRenderLoop layers renderOutput).2 with
   | some _ => some (viewport.1, viewport.2.1, viewport.1 + viewport.2.2.1,
                     viewport.2.1 + viewport.2.2.2)
   | none => none)

/-- `Application::_Unload`, restricted to its layer loop: dispatch
`OnAppUnload` in reverse (the trailing `ImGuiHelper::Cleanup` is external). -/
def Application._Unload (layers : List ApplicationLayer) : List Ev :=
  dispatchReverse layers .OnAppUnload Ev.appUnloadHook

/-- The `OnSceneUnload` loop inside `Application::_HandleSceneChange`
(reverse iteration). -/
def sceneUnloadDispatch (layers : List ApplicationLayer) : List Ev :=
  dispatchReverse layers .OnSceneUnload Ev.sceneUnloadHook

/-- The `OnSceneLoad` loop inside `Application::_HandleSceneChange`
(forward iteration). -/
def sceneLoadDispatch (layers : List ApplicationLayer) : List Ev :=
  dispatchForward layers .OnSceneLoad Ev.sceneLoadHook

/-- `Application::_HandleWindowSizeChanged`: dispatch `OnWindowResize` forward
with (old, new) sizes, then update `_windowSize` and reset `_primaryViewport`
to cover the new size. -/
def Application._HandleWindowSizeChanged (st : AppState) (newSize : ℕ × ℕ) :
    AppState × List Ev :=
  ({ st with
      _windowSize := newSize
      _primaryViewport := (0, 0, newSize.1, newSize.2) },
   dispatchForward st._layers .OnWindowResize Ev.windowResizeHook)

/-- `Application::Quit`: clears the running flag and nothing else. -/
def Application.Quit (st : AppState) : AppState :=
  { st with _isRunning := false }

/-- `Application::_HandleSceneChange`: unload hooks (reverse) if a current
scene exists, assign `_currentScene = _targetScene`, load hooks (forward),
`_currentScene->Awake()`, `IsPlaying = true` unless in editor mode, and
finally `_targetScene = nullptr`. -/
def Application._HandleSceneChange (st : AppState) : AppState × List Ev :=
  let unloadEvs :=
    match st._currentScene with
    | some _ => sceneUnloadDispatch st._layers
    | none => []
  let cur := st._targetScene
  let loadEvs := sceneLoadDispatch st._layers
  let playStep :=
    if !st._isEditor then
      (cur.map fun s => { s with IsPlaying := true }, [Ev.setScenePlaying])
    else (cur, ([] : List Ev))
  ({ st with _currentScene := playStep.1, _targetScene := none },
   unloadEvs ++ [Ev.assignCurrentScene] ++ loadEvs ++ [Ev.sceneAwake]
     ++ playStep.2 ++ [Ev.clearTargetScene])

/-! ## Dispatch characterisation -/

/-- Specification of a phase's visit order: the hook calls for the eligible
layers, listed in registration order. -/
def eligibleHookCalls (layers : List ApplicationLayer) (phase : AppLayerFunctions)
    (mk : ℕ → Ev) : List Ev :=
  (layers.enum.filter (fun li => layerWants li.2 phase)).map (fun li => mk li.1)

/-- Spec-side carry rule (from the spec's words): the carried result is the
last non-null output in iteration order; null outputs leave it unchanged,
so an all-null list leaves the initial value. -/
def lastNonNull (outs : List (Option ℕ)) (init : Option ℕ) : Option ℕ :=
  match (outs.filterMap id).getLast? with
  | some x => some x
  | none => init

/-- The layers a phase visits (ignoring order), per the dispatch guard. -/
def eligibleLayers (layers : List ApplicationLayer) (phase : AppLayerFunctions) :
    List ApplicationLayer :=
  layers.filter (fun l => layerWants l phase)

/-- A layer enabled for every hook, used as a concrete witness input. -/
def demoLayer : ApplicationLayer :=
  { Name := "Render"
    Enabled := true
    Overrides := [.OnAppLoad, .OnAppUnload, .OnUpdate, .OnLateUpdate, .OnPreRender,
                  .OnRender, .OnPostRender, .OnSceneLoad, .OnSceneUnload, .OnWindowResize]
    renderOutput := some 1
    postRenderOutput := none
    defaultConfig := .obj [] }

def demoLayers : List ApplicationLayer := [demoLayer]

def demoTiming : Timing :=
  { _timeScale := 1, _deltaTime := 0, _unscaledDeltaTime := 0,
    _timeSinceAppLoad := 0, _unscaledTimeSinceAppLoad := 0,
    _timeSinceSceneLoad := 0, _unscaledTimeSinceSceneLoad := 0 }

def demoState : AppState :=
  { _isRunning := true
    _isEditor := false
    _currentScene := none
    _targetScene := none
    _layers := demoLayers
    timing := demoTiming
    _renderOutput := none
    _windowSize := (8, 6)
    _primaryViewport := (0, 0, 8, 6)
    isEscapePressed := false
    isGamePaused := false
    isGameStarted := false
    manifestsLoaded := [] }

/-! ## C1: dispatch guard -/

/-- A layer enabled for the Render and PostRender phases with a chosen
`GetRenderOutput` value, for the concrete carry examples. -/
def renderOnlyLayer (out : Option ℕ) : ApplicationLayer :=
  { Name := ""
    Enabled := true
    Overrides := [.OnRender, .OnPostRender]
    renderOutput := out
    postRenderOutput := none
    defaultConfig := .obj [] }

/-- The timing block of `Application::_Run` (lines 270-284): given the
wall-clock delta `dt = thisFrame - lastFrame`, compute
`scaledDt = dt * _timeScale` and advance every counter. -/
def timingStep (dt : ℚ) (t : Timing) : Timing :=
  let scaledDt := dt * t._timeScale
  { t with
      _unscaledDeltaTime := dt
      _deltaTime := scaledDt
      _timeSinceAppLoad := t._timeSinceAppLoad + scaledDt
      _unscaledTimeSinceAppLoad := t._unscaledTimeSinceAppLoad + dt
      _timeSinceSceneLoad := t._timeSinceSceneLoad + scaledDt
      _unscaledTimeSinceSceneLoad := t._unscaledTimeSinceSceneLoad + dt }

/-- External inputs observed during one iteration of the `while (_isRunning)`
loop: the window's close request, the wall-clock delta, and the outcomes of
the game-specific input handling (whether its `LoadScene` calls staged a
scene, and whether the scene-reload branch ran). -/
structure FrameInput where
  windowShouldClose : Bool
  dt : ℚ
  stagedScene : Option Scene
  reloadRequested : Bool
  reloadScene : Option Scene
  escapeDown : Bool

/-- Lines 214-260 of `Application::_Run`: the game-specific input handling
(start-screen branch, escape/pause toggle, pause-screen panel, scene-reload
branch).  Its effects on the application state are: possibly staging a scene
via `LoadScene` (which resets the pause flags and sets `_targetScene`),
toggling `isEscapePressed`/`isGamePaused`, and, in the reload branch, setting
the current scene's `IsPlaying`.  GLFW key state and `FindObjectByName`
results are external and abstracted into `FrameInput`; scene-internal UI
mutations (GuiPanel enables) are not observed by the claims and are omitted.
The block never touches `_isRunning`, the `_currentScene` pointer, the
`Timing` singleton or `_layers`. -/
def gameInputStep (inp : FrameInput) (st : AppState) : AppState :=
  let st1 :=
    match inp.stagedScene with
    | some s =>
        { st with
            isEscapePressed := false, isGamePaused := false, isGameStarted := true
            _targetScene := some s }
    | none => st
  let st2 :=
    if inp.escapeDown then
      { st1 with
          isGamePaused :=
            if !st1.isEscapePressed && st1.isGameStarted then !st1.isGamePaused
            else st1.isGamePaused
          isEscapePressed := true }
    else { st1 with isEscapePressed := false }
  if inp.reloadRequested then
    let st3 :=
      match inp.reloadScene with
      | some s =>
          { st2 with
              isEscapePressed := false, isGamePaused := false, isGameStarted := true
              _targetScene := some s }
      | none => st2
    { st3 with _currentScene := st3._currentScene.map fun s => { s with IsPlaying := true } }
  else st2

/-- The scene-swap step at the top of the frame (lines 210-212):
`if (_targetScene != nullptr) _HandleSceneChange();`. -/
def sceneSwapStep (st : AppState) : AppState × List Ev :=
  if st._targetScene.isSome then Application._HandleSceneChange st else (st, [])

/-- The five-phase core update block (lines 288-296): only entered when
`_currentScene != nullptr`; runs Update, LateUpdate, PreRender, RenderScene
(storing `_renderOutput`) and PostRender (updating `_renderOutput` and
possibly blitting). -/
def corePhasesStep (st : AppState) : AppState × List Ev :=
  if st._currentScene.isSome then
    let updateEvs := Application._Update st._layers
    let lateEvs := Application._LateUpdate st._layers
    let preEvs := Application._PreRender st._layers
    let render := Application._RenderScene st._layers
    let post := Application._PostRender st._layers render.2 st._primaryViewport
    ({ st with _renderOutput := post.2.1 },
     updateEvs ++ lateEvs ++ preEvs ++ render.1 ++ post.1
       ++ (match post.2.2 with
           | some dst => [Ev.blit dst]
           | none => []))
  else (st, [])

/-- One iteration of the `while (_isRunning)` loop in `Application::_Run`
(lines 208-306), in source order: scene swap, game-specific input handling,
`glfwPollEvents`, close-button check (clears `_isRunning`), timing update,
the five phases under a non-null current scene, and the end-of-frame
bookkeeping (`InputEngine::EndFrame`, `ImGuiHelper::EndFrame`,
`glfwSwapBuffers`). -/
def frameStep (inp : FrameInput) (st : AppState) : AppState × List Ev :=
  let swap := sceneSwapStep st
  let st2 := gameInputStep inp swap.1
  let close :=
    if inp.windowShouldClose then
      ({ st2 with _isRunning := false }, [Ev.clearRunningFlag])
    else (st2, ([] : List Ev))
  let st4 := { close.1 with timing := timingStep inp.dt close.1.timing }
  let phases := corePhasesStep st4
  (phases.1,
   swap.2 ++ close.2 ++ [Ev.timingUpdate] ++ phases.2
     ++ [Ev.inputEndFrame, Ev.imguiEndFrame, Ev.swapBuffers])

/-- The loop itself: each iteration first checks `_isRunning` at the top;
a frame, once entered, always runs to completion. -/
def runFrames (inps : List FrameInput) (st : AppState) : AppState × List Ev :=
  match inps with
  | [] => (st, [])
  | inp :: rest =>
    if st._isRunning then
      let fr := frameStep inp st
      let rec' := runFrames rest fr.1
      (rec'.1, fr.2 ++ rec'.2)
    else (st, [])

/-! ## Helper equations and trace facts -/

/-- The application state right before the timing update: after the scene
swap, the game input handling and the close check. -/
def preTimingState (inp : FrameInput) (st : AppState) : AppState :=
  let st2 := gameInputStep inp (sceneSwapStep st).1
  if inp.windowShouldClose then { st2 with _isRunning := false } else st2

/-- The application state the five phases observe: `preTimingState` with the
timing update applied. -/
def phasesState (inp : FrameInput) (st : AppState) : AppState :=
  { preTimingState inp st with
      timing := timingStep inp.dt (preTimingState inp st).timing }

/-- The `Timing` singleton at application start: all counters zero, with a
given time scale. -/
def timingInit (s : ℚ) : Timing :=
  { _timeScale := s, _deltaTime := 0, _unscaledDeltaTime := 0,
    _timeSinceAppLoad := 0, _unscaledTimeSinceAppLoad := 0,
    _timeSinceSceneLoad := 0, _unscaledTimeSinceSceneLoad := 0 }

/-- The concrete frame used to exhibit that no scene-load reset exists. -/
def c6Scene : Scene := { sid := 0, IsPlaying := false }

def c6State : AppState :=
  { demoState with
      _targetScene := some c6Scene
      timing := { demoTiming with
        _timeSinceSceneLoad := 5, _unscaledTimeSinceSceneLoad := 5 } }

def c6Input : FrameInput :=
  { windowShouldClose := false, dt := 1, stagedScene := none,
    reloadRequested := false, reloadScene := none, escapeDown := false }

def quietInput : FrameInput :=
  { windowShouldClose := false, dt := 1, stagedScene := none,
    reloadRequested := false, reloadScene := none, escapeDown := false }

def closeInput : FrameInput := { quietInput with windowShouldClose := true }

/-- The events emitted by the five per-frame phase dispatchers. -/
def isPerFrameHook : Ev → Bool
  | .updateHook _ => true
  | .lateUpdateHook _ => true
  | .preRenderHook _ => true
  | .renderHook _ => true
  | .postRenderHook _ => true
  | _ => false

/-- First binding of a key in an object's field list. -/
def lookupField : List (String × Json) → String → Option Json
  | [], _ => none
  | (k', v') :: rest, k => if k' = k then some v' else lookupField rest k

/-- `operator[]=` on an object's field list: update the binding of the key in
place, or append a new binding at the end (nlohmann keeps insertion order). -/
def setField : List (String × Json) → String → Json → List (String × Json)
  | [], k, v => [(k, v)]
  | (k', v') :: rest, k, v =>
      if k' = k then (k, v) :: rest else (k', v') :: setField rest k v

/-- Key removal (`erase`). -/
def eraseField (fs : List (String × Json)) (k : String) : List (String × Json) :=
  fs.filter fun kv => kv.1 ≠ k

mutual

/-- RFC 7386 `merge_patch` as `nlohmann::json::merge_patch` implements it:
an object patch is merged key by key into the target (a non-object target is
first replaced by an empty object; a null patch value erases the key; any
other patch value is itself merge-patched over the target's value for that
key); a non-object patch replaces the target outright. -/
def Json.mergePatch : Json → Json → Json
  | t, .obj pf =>
      .obj (Json.mergeFields (match t with | .obj tf => tf | _ => []) pf)
  | _, p => p

/-- The patch-application loop of `merge_patch` over the patch's fields. -/
def Json.mergeFields : List (String × Json) → List (String × Json) →
    List (String × Json)
  | base, [] => base
  | base, (k, v) :: rest =>
    match v with
    | .null => Json.mergeFields (eraseField base k) rest
    | v => Json.mergeFields
        (setField base k (Json.mergePatch ((lookupField base k).getD .null) v)) rest
end

/-- `result[key] = value` on a JSON value: nlohmann auto-converts a null
target to an object first; on an object the binding is set. -/
def Json.setKey : Json → String → Json → Json
  | .obj fs, k, v => .obj (setField fs k v)
  | _, k, v => .obj [(k, v)]

/-- Key lookup on a JSON value (`none` on non-objects). -/
def Json.lookup : Json → String → Option Json
  | .obj fs, k => lookupField fs k
  | _, _ => none

/-- `Application::_GetDefaultAppSettings`: aggregate each layer's default
config fragment — under the layer's name when it has one, merge-patched into
the root namespace otherwise (the logged collision foot-gun) — then set
`window_width`/`window_height` to the compiled defaults 1920×1080. -/
def Application._GetDefaultAppSettings (layers : List ApplicationLayer) : Json :=
  let result : Json := layers.foldl
    (fun (res : Json) layer =>
      if layer.Name ≠ "" then res.setKey layer.Name layer.defaultConfig
      else res.mergePatch layer.defaultConfig)
    (Json.obj [])
  (result.setKey "window_width" (.num 1920)).setKey "window_height" (.num 1080)

/-- `Application::_ConfigureSettings`: start from the aggregated defaults;
if a persisted settings document exists at the settings path, `merge_patch`
it over the defaults; otherwise call `SaveSettings` to write the defaults
out.  The boolean records whether the file was written. -/
def Application._ConfigureSettings (layers : List ApplicationLayer)
    (persisted : Option Json) : Json × Bool :=
  let appSettings := Application._GetDefaultAppSettings layers
  match persisted with
  | some blob => (appSettings.mergePatch blob, false)
  | none => (appSettings, true)

/-- A named layer with a nested default-config fragment, for the concrete
merge example. -/
def namedLayer : ApplicationLayer :=
  { Name := "RenderLayer", Enabled := true, Overrides := [],
    renderOutput := none, postRenderOutput := none,
    defaultConfig := .obj [("shadow_resolution", .num 1024)] }

/-- An unnamed layer whose default config goes into the root namespace. -/
def unnamedLayer : ApplicationLayer :=
  { Name := "", Enabled := true, Overrides := [],
    renderOutput := none, postRenderOutput := none,
    defaultConfig := .obj [("global_volume", .num 3)] }

/-- Characters after the last path separator (`std::filesystem::path::filename`). -/
def fileNameAux (acc : List Char) : List Char → List Char
  | [] => acc
  | c :: rest => if c = '/' then fileNameAux [] rest else fileNameAux (acc ++ [c]) rest

/-- `std::filesystem::path::stem` on a file name: strip the final extension;
a name whose only dot leads it (hidden file), "." and ".." carry no
extension. -/
def stemChars (file : List Char) : List Char :=
  if file = ['.', '.'] then file
  else
    match file with
    | [] => []
    | c0 :: rest =>
      if rest.contains '.' then
        c0 :: ((rest.reverse.dropWhile (fun c => c != '.')).tail).reverse
      else c0 :: rest

/-- `std::filesystem::path(path).stem().string()`. -/
def pathStem (p : String) : String :=
  String.mk (stemChars (fileNameAux [] p.data))

/-- Abstraction of the file system and the external collaborators of
`Application::LoadScene`: which paths exist, and what `Scene::Load` returns
for a path (`none` models the not-found/failed load that, per the spec,
yields an empty result rather than crashing). -/
structure FileSystem where
  pathExists : String → Bool
  sceneLoad : String → Option Scene

/-- `Application::LoadScene(const Scene::Sptr&)` (lines 150-152): stage the
scene as the pending target, nothing else. -/
def Application.LoadSceneTarget (st : AppState) (scene : Option Scene) : AppState :=
  { st with _targetScene := scene }

/-- `Application::LoadScene(const std::string&)` (lines 129-148): if the
scene document does not exist, return false with no state change.
Otherwise reset the pause/started flags, load the sidecar manifest
`<stem>-manifest.json` only when it exists (a missing manifest is skipped),
call `Scene::Load`, stage the result via the `Scene::Sptr` overload, and
return whether the loaded scene was non-null.  The two statements after the
`return` in the source are unreachable and have no effect. -/
def Application.LoadScenePath (fs : FileSystem) (st : AppState) (path : String) :
    Bool × AppState :=
  if fs.pathExists path then
    let st1 := { st with isEscapePressed := false, isGamePaused := false,
                         isGameStarted := true }
    let manifestPath := pathStem path ++ "-manifest.json"
    let st2 :=
      if fs.pathExists manifestPath then
        { st1 with manifestsLoaded := st1.manifestsLoaded ++ [manifestPath] }
      else st1
    let scene := fs.sceneLoad path
    (scene.isSome, Application.LoadSceneTarget st2 scene)
  else (false, st)

/-- Concrete file system: only `level1.json` exists; its manifest does not. -/
def demoFs : FileSystem :=
  { pathExists := fun p => p = "level1.json"
    sceneLoad := fun p =>
      if p = "level1.json" then some { sid := 1, IsPlaying := false } else none }

theorem dispatch_foldl_eq (l : List (ℕ × ApplicationLayer)) (phase : AppLayerFunctions)
    (mk : ℕ → Ev) (init : List Ev) :
    l.foldl (fun calls li => if layerWants li.2 phase then calls ++ [mk li.1] else calls) init
      = init ++ (l.filter (fun li => layerWants li.2 phase)).map (fun li => mk li.1) := by
  induction l generalizing init with
  | nil => simp
  | cons a l ih =>
    by_cases h : layerWants a.2 phase
    · simp [List.foldl_cons, h, ih, List.filter_cons]
    · simp [List.foldl_cons, h, ih, List.filter_cons]

theorem dispatchForward_eq (layers : List ApplicationLayer) (phase : AppLayerFunctions)
    (mk : ℕ → Ev) :
    dispatchForward layers phase mk = eligibleHookCalls layers phase mk := by
  unfold dispatchForward eligibleHookCalls
  simpa using dispatch_foldl_eq layers.enum phase mk []

theorem dispatchReverse_eq (layers : List ApplicationLayer) (phase : AppLayerFunctions)
    (mk : ℕ → Ev) :
    dispatchReverse layers phase mk = (eligibleHookCalls layers phase mk).reverse := by
  unfold dispatchReverse eligibleHookCalls
  rw [dispatch_foldl_eq]
  simp

theorem mem_eligibleHookCalls (layers : List ApplicationLayer) (phase : AppLayerFunctions)
    (mk : ℕ → Ev) (inj : ∀ a b, mk a = mk b → a = b) (i : ℕ) (h : i < layers.length) :
    mk i ∈ eligibleHookCalls layers phase mk ↔ layerWants layers[i] phase = true := by
  unfold eligibleHookCalls
  simp only [List.mem_map, List.mem_filter]
  constructor
  · rintro ⟨li, ⟨hmem, hw⟩, heq⟩
    have h1 : li.1 = i := inj _ _ heq
    have h2 : layers[li.1]? = some li.2 := List.mk_mem_enum_iff_getElem?.mp hmem
    rw [h1] at h2
    rw [List.getElem?_eq_getElem h] at h2
    have h3 : layers[i] = li.2 := by injection h2
    rw [h3]
    exact hw
  · intro hw
    refine ⟨(i, layers[i]), ⟨?_, hw⟩, rfl⟩
    exact List.mk_mem_enum_iff_getElem?.mpr (List.getElem?_eq_getElem h)

/-! ## Render-output carry -/

theorem lastNonNull_cons (o : Option ℕ) (outs : List (Option ℕ)) (init : Option ℕ) :
    lastNonNull (o :: outs) init
      = lastNonNull outs (match o with | some x => some x | none => init) := by
  unfold lastNonNull
  cases o with
  | none => rfl
  | some x =>
    simp only [List.filterMap_cons, id]
    cases hfm : outs.filterMap id with
    | nil => simp [hfm]
    | cons b bs =>
      rw [List.getLast?_cons_cons]
      cases hl : (b :: bs).getLast? with
      | none => exact absurd (List.getLast?_eq_none_iff.mp hl) (by simp)
      | some y => rfl

theorem enumFrom_filter_map_snd {β : Type} (n : ℕ) (layers : List ApplicationLayer)
    (p : ApplicationLayer → Bool) (f : ApplicationLayer → β) :
    ((layers.enumFrom n).filter (fun li => p li.2)).map (fun li => f li.2)
      = (layers.filter p).map f := by
  induction layers generalizing n with
  | nil => rfl
  | cons a l ih =>
    by_cases h : p a <;> simp [List.enumFrom, List.filter_cons, h, ih]

theorem enum_filter_map_snd {β : Type} (layers : List ApplicationLayer)
    (p : ApplicationLayer → Bool) (f : ApplicationLayer → β) :
    (layers.enum.filter (fun li => p li.2)).map (fun li => f li.2)
      = (layers.filter p).map f :=
  enumFrom_filter_map_snd 0 layers p f

theorem renderScene_foldl (l : List (ℕ × ApplicationLayer)) (evs : List Ev) (r : Option ℕ) :
    (l.foldl (fun acc li =>
        if layerWants li.2 .OnRender then
          (acc.1 ++ [Ev.renderHook li.1],
           match li.2.renderOutput with
           | some x => some x
           | none => acc.2)
        else acc) (evs, r))
      = (evs ++ (l.filter (fun li => layerWants li.2 .OnRender)).map
            (fun li => Ev.renderHook li.1),
         lastNonNull ((l.filter (fun li => layerWants li.2 .OnRender)).map
            (fun li => li.2.renderOutput)) r) := by
  induction l generalizing evs r with
  | nil => simp [lastNonNull]
  | cons a l ih =>
    by_cases h : layerWants a.2 .OnRender
    · simp only [List.foldl_cons, h, if_pos, List.filter_cons, List.map_cons]
      rw [ih, lastNonNull_cons]
      simp [h]
    · simp only [List.foldl_cons, h, List.filter_cons]
      rw [ih]
      simp [h]

theorem postRender_foldl (l : List (ℕ × ApplicationLayer)) (evs : List Ev) (r : Option ℕ) :
    (l.foldl (fun (acc : List Ev × Option ℕ) li =>
        if layerWants li.2 .OnPostRender then
          (acc.1 ++ [Ev.postRenderHook li.1],
           match li.2.postRenderOutput with
           | some x => some x
           | none => acc.2)
        else acc) (evs, r))
      = (evs ++ (l.filter (fun li => layerWants li.2 .OnPostRender)).map
            (fun li => Ev.postRenderHook li.1),
         lastNonNull ((l.filter (fun li => layerWants li.2 .OnPostRender)).map
            (fun li => li.2.postRenderOutput)) r) := by
  induction l generalizing evs r with
  | nil => simp [lastNonNull]
  | cons a l ih =>
    by_cases h : layerWants a.2 .OnPostRender
    · simp only [List.foldl_cons, h, if_pos, List.filter_cons, List.map_cons]
      rw [ih, lastNonNull_cons]
      simp [h]
    · simp only [List.foldl_cons, h, List.filter_cons]
      rw [ih]
      simp [h]

theorem RenderScene_eq (layers : List ApplicationLayer) :
    Application._RenderScene layers
      = (eligibleHookCalls layers .OnRender Ev.renderHook,
         lastNonNull ((eligibleLayers layers .OnRender).map (fun l => l.renderOutput)) none) := by
  unfold Application._RenderScene
  rw [renderScene_foldl]
  unfold eligibleHookCalls eligibleLayers
  rw [enum_filter_map_snd layers (fun l => layerWants l .OnRender) (fun l => l.renderOutput)]
  simp

theorem PostRenderLoop_eq (layers : List ApplicationLayer) (r : Option ℕ) :
    Application._PostRenderLoop layers r
      = ((eligibleHookCalls layers .OnPostRender Ev.postRenderHook).reverse,
         lastNonNull (((eligibleLayers layers .OnPostRender).map
            (fun l => l.postRenderOutput)).reverse) r) := by
  unfold Application._PostRenderLoop
  rw [postRender_foldl]
  have hfilter : layers.enum.reverse.filter (fun li => layerWants li.2 .OnPostRender)
      = (layers.enum.filter (fun li => layerWants li.2 .OnPostRender)).reverse :=
    List.filter_reverse _ _
  rw [hfilter]
  unfold eligibleHookCalls eligibleLayers
  rw [← enum_filter_map_snd layers (fun l => layerWants l .OnPostRender)
        (fun l => l.postRenderOutput)]
  simp

theorem PostRender_eq (layers : List ApplicationLayer) (r : Option ℕ)
    (vp : ℕ × ℕ × ℕ × ℕ) :
    Application._PostRender layers r vp
      = ((eligibleHookCalls layers .OnPostRender Ev.postRenderHook).reverse,
         lastNonNull (((eligibleLayers layers .OnPostRender).map
            (fun l => l.postRenderOutput)).reverse) r,
         match lastNonNull (((eligibleLayers layers .OnPostRender).map
            (fun l => l.postRenderOutput)).reverse) r with
         | some _ => some (vp.1, vp.2.1, vp.1 + vp.2.2.1, vp.2.1 + vp.2.2.2)
         | none => none) := by
  unfold Application._PostRender
  rw [PostRenderLoop_eq]

theorem mem_hook_iff (layers : List ApplicationLayer) (phase : AppLayerFunctions)
    (mk : ℕ → Ev) (inj : ∀ a b, mk a = mk b → a = b) (i : ℕ) (h : i < layers.length) :
    mk i ∈ eligibleHookCalls layers phase mk
      ↔ (layers[i].Enabled ∧ layers[i].Overrides.contains phase) := by
  rw [mem_eligibleHookCalls layers phase mk inj i h]
  simp [layerWants]

/-! ## Demonstration values used by witnesses -/

/-- C1: for every phase dispatcher (OnAppLoad, OnUpdate, OnLateUpdate, OnPreRender,
OnRender, OnPostRender, OnAppUnload, OnSceneLoad, OnSceneUnload, OnWindowResize)
and every list of layers with arbitrary `Enabled` flags and `Overrides` bitmasks,
the dispatcher invokes the phase hook on layer `i` if and only if that layer's
`Enabled` flag is true and its `Overrides` bitmask includes the bit for that
phase; a disabled layer or a layer whose bitmask excludes the phase receives
no call for that phase. -/
theorem c1_dispatch_guard (layers : List ApplicationLayer) (st : AppState)
    (newSize : ℕ × ℕ) (r : Option ℕ) (vp : ℕ × ℕ × ℕ × ℕ) (i : ℕ)
    (h : i < layers.length) (hst : st._layers = layers) :
    (Ev.appLoadHook i ∈ Application._Load layers
      ↔ (layers[i].Enabled ∧ layers[i].Overrides.contains .OnAppLoad))
    ∧ (Ev.updateHook i ∈ Application._Update layers
      ↔ (layers[i].Enabled ∧ layers[i].Overrides.contains .OnUpdate))
    ∧ (Ev.lateUpdateHook i ∈ Application._LateUpdate layers
      ↔ (layers[i].Enabled ∧ layers[i].Overrides.contains .OnLateUpdate))
    ∧ (Ev.preRenderHook i ∈ Application._PreRender layers
      ↔ (layers[i].Enabled ∧ layers[i].Overrides.contains .OnPreRender))
    ∧ (Ev.renderHook i ∈ (Application._RenderScene layers).1
      ↔ (layers[i].Enabled ∧ layers[i].Overrides.contains .OnRender))
    ∧ (Ev.postRenderHook i ∈ (Application._PostRender layers r vp).1
      ↔ (layers[i].Enabled ∧ layers[i].Overrides.contains .OnPostRender))
    ∧ (Ev.appUnloadHook i ∈ Application._Unload layers
      ↔ (layers[i].Enabled ∧ layers[i].Overrides.contains .OnAppUnload))
    ∧ (Ev.sceneLoadHook i ∈ sceneLoadDispatch layers
      ↔ (layers[i].Enabled ∧ layers[i].Overrides.contains .OnSceneLoad))
    ∧ (Ev.sceneUnloadHook i ∈ sceneUnloadDispatch layers
      ↔ (layers[i].Enabled ∧ layers[i].Overrides.contains .OnSceneUnload))
    ∧ (Ev.windowResizeHook i ∈ (Application._HandleWindowSizeChanged st newSize).2
      ↔ (layers[i].Enabled ∧ layers[i].Overrides.contains .OnWindowResize)) := by
  refine ⟨?_, ?_, ?_, ?_, ?_, ?_, ?_, ?_, ?_, ?_⟩
  · unfold Application._Load
    rw [dispatchForward_eq]
    exact mem_hook_iff _ _ _ (fun a b hh => by injection hh) i h
  · unfold Application._Update
    rw [dispatchForward_eq]
    exact mem_hook_iff _ _ _ (fun a b hh => by injection hh) i h
  · unfold Application._LateUpdate
    rw [dispatchForward_eq]
    exact mem_hook_iff _ _ _ (fun a b hh => by injection hh) i h
  · unfold Application._PreRender
    rw [dispatchForward_eq]
    exact mem_hook_iff _ _ _ (fun a b hh => by injection hh) i h
  · rw [RenderScene_eq]
    exact mem_hook_iff _ _ _ (fun a b hh => by injection hh) i h
  · rw [PostRender_eq]
    exact List.mem_reverse.trans (mem_hook_iff _ _ _ (fun a b hh => by injection hh) i h)
  · unfold Application._Unload
    rw [dispatchReverse_eq]
    exact List.mem_reverse.trans (mem_hook_iff _ _ _ (fun a b hh => by injection hh) i h)
  · unfold sceneLoadDispatch
    rw [dispatchForward_eq]
    exact mem_hook_iff _ _ _ (fun a b hh => by injection hh) i h
  · unfold sceneUnloadDispatch
    rw [dispatchReverse_eq]
    exact List.mem_reverse.trans (mem_hook_iff _ _ _ (fun a b hh => by injection hh) i h)
  · unfold Application._HandleWindowSizeChanged
    rw [hst, dispatchForward_eq]
    exact mem_hook_iff _ _ _ (fun a b hh => by injection hh) i h

/-- Witness for C1 at a concrete layer list and index. -/
theorem c1_dispatch_guard_witness :
    (0 < demoLayers.length ∧ demoState._layers = demoLayers)
    ∧ ((Ev.appLoadHook 0 ∈ Application._Load demoLayers
        ↔ (demoLayer.Enabled ∧ demoLayer.Overrides.contains .OnAppLoad))
      ∧ (Ev.updateHook 0 ∈ Application._Update demoLayers
        ↔ (demoLayer.Enabled ∧ demoLayer.Overrides.contains .OnUpdate))
      ∧ (Ev.lateUpdateHook 0 ∈ Application._LateUpdate demoLayers
        ↔ (demoLayer.Enabled ∧ demoLayer.Overrides.contains .OnLateUpdate))
      ∧ (Ev.preRenderHook 0 ∈ Application._PreRender demoLayers
        ↔ (demoLayer.Enabled ∧ demoLayer.Overrides.contains .OnPreRender))
      ∧ (Ev.renderHook 0 ∈ (Application._RenderScene demoLayers).1
        ↔ (demoLayer.Enabled ∧ demoLayer.Overrides.contains .OnRender))
      ∧ (Ev.postRenderHook 0 ∈ (Application._PostRender demoLayers none (0, 0, 8, 6)).1
        ↔ (demoLayer.Enabled ∧ demoLayer.Overrides.contains .OnPostRender))
      ∧ (Ev.appUnloadHook 0 ∈ Application._Unload demoLayers
        ↔ (demoLayer.Enabled ∧ demoLayer.Overrides.contains .OnAppUnload))
      ∧ (Ev.sceneLoadHook 0 ∈ sceneLoadDispatch demoLayers
        ↔ (demoLayer.Enabled ∧ demoLayer.Overrides.contains .OnSceneLoad))
      ∧ (Ev.sceneUnloadHook 0 ∈ sceneUnloadDispatch demoLayers
        ↔ (demoLayer.Enabled ∧ demoLayer.Overrides.contains .OnSceneUnload))
      ∧ (Ev.windowResizeHook 0 ∈ (Application._HandleWindowSizeChanged demoState (4, 3)).2
        ↔ (demoLayer.Enabled ∧ demoLayer.Overrides.contains .OnWindowResize))) :=
  ⟨⟨by simp [demoLayers], rfl⟩,
   c1_dispatch_guard demoLayers demoState (4, 3) none (0, 0, 8, 6) 0
     (by simp [demoLayers]) rfl⟩

/-! ## C2: visit order -/

/-- C2: Update, LateUpdate, PreRender, Render, OnAppLoad and OnSceneLoad visit
eligible layers in exactly registration order (`eligibleHookCalls` lists them
in registration order), while PostRender, OnSceneUnload and OnAppUnload visit
eligible layers in exactly the reverse of registration order. -/
theorem c2_phase_order (layers : List ApplicationLayer) (r : Option ℕ)
    (vp : ℕ × ℕ × ℕ × ℕ) :
    Application._Update layers = eligibleHookCalls layers .OnUpdate Ev.updateHook
    ∧ Application._LateUpdate layers = eligibleHookCalls layers .OnLateUpdate Ev.lateUpdateHook
    ∧ Application._PreRender layers = eligibleHookCalls layers .OnPreRender Ev.preRenderHook
    ∧ (Application._RenderScene layers).1 = eligibleHookCalls layers .OnRender Ev.renderHook
    ∧ Application._Load layers = eligibleHookCalls layers .OnAppLoad Ev.appLoadHook
    ∧ sceneLoadDispatch layers = eligibleHookCalls layers .OnSceneLoad Ev.sceneLoadHook
    ∧ (Application._PostRender layers r vp).1
        = (eligibleHookCalls layers .OnPostRender Ev.postRenderHook).reverse
    ∧ sceneUnloadDispatch layers
        = (eligibleHookCalls layers .OnSceneUnload Ev.sceneUnloadHook).reverse
    ∧ Application._Unload layers
        = (eligibleHookCalls layers .OnAppUnload Ev.appUnloadHook).reverse := by
  refine ⟨dispatchForward_eq _ _ _, dispatchForward_eq _ _ _, dispatchForward_eq _ _ _,
    ?_, dispatchForward_eq _ _ _, dispatchForward_eq _ _ _, ?_,
    dispatchReverse_eq _ _ _, dispatchReverse_eq _ _ _⟩
  · rw [RenderScene_eq]
  · rw [PostRender_eq]

/-! ## C4: render-output carry -/

/-- C4: the carried render result after the Render phase is the last non-null
layer output in iteration order (null outputs leave it unchanged, starting
from null); PostRender applies the same latest-non-null-wins rule over its
reverse iteration starting from the Render result; no blit happens iff the
surviving output is null, and a non-null survivor is blitted into the primary
viewport rectangle.  For outputs {null, A, null} the carried result is A, and
for {null, null, null} it is null and no blit occurs. -/
theorem c4_render_carry (layers : List ApplicationLayer) (r : Option ℕ)
    (vp : ℕ × ℕ × ℕ × ℕ) :
    (Application._RenderScene layers).2
        = lastNonNull ((eligibleLayers layers .OnRender).map (fun l => l.renderOutput)) none
    ∧ (Application._PostRender layers r vp).2.1
        = lastNonNull (((eligibleLayers layers .OnPostRender).map
            (fun l => l.postRenderOutput)).reverse) r
    ∧ ((Application._PostRender layers r vp).2.2 = none
        ↔ (Application._PostRender layers r vp).2.1 = none)
    ∧ (∀ fb, (Application._PostRender layers r vp).2.1 = some fb →
        (Application._PostRender layers r vp).2.2
          = some (vp.1, vp.2.1, vp.1 + vp.2.2.1, vp.2.1 + vp.2.2.2))
    ∧ (Application._RenderScene
        [renderOnlyLayer none, renderOnlyLayer (some 7), renderOnlyLayer none]).2 = some 7
    ∧ (Application._RenderScene
        [renderOnlyLayer none, renderOnlyLayer none, renderOnlyLayer none]).2 = none
    ∧ (Application._PostRender
        [renderOnlyLayer none, renderOnlyLayer none, renderOnlyLayer none]
        none (0, 0, 8, 6)).2.2 = none := by
  refine ⟨?_, ?_, ?_, ?_, by decide, by decide, by decide⟩
  · rw [RenderScene_eq]
  · rw [PostRender_eq]
  · rw [PostRender_eq]
    cases lastNonNull (((eligibleLayers layers .OnPostRender).map
        (fun l => l.postRenderOutput)).reverse) r with
    | none => simp
    | some x => simp
  · intro fb hfb
    rw [PostRender_eq] at hfb ⊢
    have h2 : lastNonNull (((eligibleLayers layers .OnPostRender).map
        (fun l => l.postRenderOutput)).reverse) r = some fb := hfb
    show (match lastNonNull (((eligibleLayers layers .OnPostRender).map
          (fun l => l.postRenderOutput)).reverse) r with
        | some _ => some (vp.1, vp.2.1, vp.1 + vp.2.2.1, vp.2.1 + vp.2.2.2)
        | none => none)
      = some (vp.1, vp.2.1, vp.1 + vp.2.2.1, vp.2.1 + vp.2.2.2)
    rw [h2]

/-- Witness for C4's implication conjunct at a concrete input. -/
theorem c4_render_carry_witness :
    (Application._PostRender demoLayers (some 5) (0, 0, 8, 6)).2.1 = some 5
    ∧ (Application._PostRender demoLayers (some 5) (0, 0, 8, 6)).2.2
        = some (0, 0, 0 + 8, 0 + 6) :=
  ⟨by decide,
   (c4_render_carry demoLayers (some 5) (0, 0, 8, 6)).2.2.2.1 5 (by decide)⟩

/-! ## The per-frame loop of `Application::_Run` -/

theorem Update_eq (layers : List ApplicationLayer) :
    Application._Update layers = eligibleHookCalls layers .OnUpdate Ev.updateHook :=
  dispatchForward_eq layers .OnUpdate Ev.updateHook

theorem LateUpdate_eq (layers : List ApplicationLayer) :
    Application._LateUpdate layers = eligibleHookCalls layers .OnLateUpdate Ev.lateUpdateHook :=
  dispatchForward_eq layers .OnLateUpdate Ev.lateUpdateHook

theorem PreRender_eq (layers : List ApplicationLayer) :
    Application._PreRender layers = eligibleHookCalls layers .OnPreRender Ev.preRenderHook :=
  dispatchForward_eq layers .OnPreRender Ev.preRenderHook

theorem sceneLoadDispatch_eq (layers : List ApplicationLayer) :
    sceneLoadDispatch layers = eligibleHookCalls layers .OnSceneLoad Ev.sceneLoadHook :=
  dispatchForward_eq layers .OnSceneLoad Ev.sceneLoadHook

theorem sceneUnloadDispatch_eq (layers : List ApplicationLayer) :
    sceneUnloadDispatch layers
      = (eligibleHookCalls layers .OnSceneUnload Ev.sceneUnloadHook).reverse :=
  dispatchReverse_eq layers .OnSceneUnload Ev.sceneUnloadHook

theorem eligibleHookCalls_shape {layers : List ApplicationLayer}
    {phase : AppLayerFunctions} {mk : ℕ → Ev} {e : Ev}
    (he : e ∈ eligibleHookCalls layers phase mk) : ∃ j, mk j = e := by
  unfold eligibleHookCalls at he
  obtain ⟨li, _, heq⟩ := List.mem_map.mp he
  exact ⟨li.1, heq⟩

theorem not_mem_eligibleHookCalls (layers : List ApplicationLayer)
    (phase : AppLayerFunctions) (mk : ℕ → Ev) (e : Ev) (hmk : ∀ j, mk j ≠ e) :
    e ∉ eligibleHookCalls layers phase mk := by
  intro hmem
  obtain ⟨j, hj⟩ := eligibleHookCalls_shape hmem
  exact hmk j hj

/-- The core-phase block never emits a `sceneAwake` event. -/
theorem sceneAwake_not_mem_corePhases (st : AppState) :
    Ev.sceneAwake ∉ (corePhasesStep st).2 := by
  unfold corePhasesStep
  by_cases h : st._currentScene.isSome = true
  · simp only [h, if_pos]
    intro hmem
    rw [List.mem_append, List.mem_append, List.mem_append, List.mem_append,
      List.mem_append] at hmem
    rcases hmem with ((((hu | hl) | hp) | hr) | hpo) | hb
    · exact not_mem_eligibleHookCalls _ _ _ _ (fun j hj => Ev.noConfusion hj)
        (Update_eq st._layers ▸ hu)
    · exact not_mem_eligibleHookCalls _ _ _ _ (fun j hj => Ev.noConfusion hj)
        (LateUpdate_eq st._layers ▸ hl)
    · exact not_mem_eligibleHookCalls _ _ _ _ (fun j hj => Ev.noConfusion hj)
        (PreRender_eq st._layers ▸ hp)
    · rw [RenderScene_eq] at hr
      exact not_mem_eligibleHookCalls _ _ _ _ (fun j hj => Ev.noConfusion hj) hr
    · rw [PostRender_eq] at hpo
      have hpo' : Ev.sceneAwake
          ∈ eligibleHookCalls st._layers .OnPostRender Ev.postRenderHook :=
        List.mem_reverse.mp hpo
      exact not_mem_eligibleHookCalls _ _ _ _ (fun j hj => Ev.noConfusion hj) hpo'
    · revert hb
      cases (Application._PostRender st._layers
          (Application._RenderScene st._layers).2 st._primaryViewport).2.2 with
      | none => simp
      | some dst => simp
  · simp only [h]
    simp

/-- The close-check step never emits a `sceneAwake` event. -/
theorem sceneAwake_count_closeEvs (b : Bool) :
    (if b then [Ev.clearRunningFlag] else ([] : List Ev)).count Ev.sceneAwake = 0 := by
  cases b <;> simp

theorem frameStep_eq (inp : FrameInput) (st : AppState) :
    frameStep inp st
      = ((corePhasesStep (phasesState inp st)).1,
         (sceneSwapStep st).2
           ++ (if inp.windowShouldClose then [Ev.clearRunningFlag] else [])
           ++ [Ev.timingUpdate]
           ++ (corePhasesStep (phasesState inp st)).2
           ++ [Ev.inputEndFrame, Ev.imguiEndFrame, Ev.swapBuffers]) := by
  unfold frameStep phasesState preTimingState
  cases h : inp.windowShouldClose <;> simp [h]

/-! ## C3: the scene transition -/

/-- C3: whenever a target scene is staged at the top of a frame, the
transition performs, in order and before any other phase of that frame:
`OnSceneUnload` in reverse registration order (only if a current scene
exists), then the current-scene assignment, then `OnSceneLoad` in forward
registration order, then the new scene's `Awake()` (exactly once in the
whole frame, and before any `OnUpdate` hook), then `IsPlaying := true`
unless in editor mode (where the flag is left untouched, hence still false
for a freshly loaded scene), and finally the target slot is cleared. -/
theorem c3_scene_transition (st : AppState) (inp : FrameInput) (t : Scene)
    (h : st._targetScene = some t) :
    (Application._HandleSceneChange st).2
        = (if st._currentScene.isSome then sceneUnloadDispatch st._layers else [])
          ++ [Ev.assignCurrentScene] ++ sceneLoadDispatch st._layers ++ [Ev.sceneAwake]
          ++ (if st._isEditor then [] else [Ev.setScenePlaying]) ++ [Ev.clearTargetScene]
    ∧ (Application._HandleSceneChange st).1._currentScene
        = some (if st._isEditor then t else { t with IsPlaying := true })
    ∧ (Application._HandleSceneChange st).1._targetScene = none
    ∧ (st._isEditor = true → (Application._HandleSceneChange st).1._currentScene = some t)
    ∧ (∃ rest, (frameStep inp st).2 = (Application._HandleSceneChange st).2 ++ rest)
    ∧ (∀ i, Ev.updateHook i ∉ (Application._HandleSceneChange st).2)
    ∧ Ev.sceneAwake ∈ (Application._HandleSceneChange st).2
    ∧ (frameStep inp st).2.count Ev.sceneAwake = 1 := by
  have hswap : sceneSwapStep st = Application._HandleSceneChange st := by
    unfold sceneSwapStep
    rw [h]
    simp
  have htr : (Application._HandleSceneChange st).2
      = (if st._currentScene.isSome then sceneUnloadDispatch st._layers else [])
        ++ [Ev.assignCurrentScene] ++ sceneLoadDispatch st._layers ++ [Ev.sceneAwake]
        ++ (if st._isEditor then [] else [Ev.setScenePlaying]) ++ [Ev.clearTargetScene] := by
    unfold Application._HandleSceneChange
    cases hc : st._currentScene <;> cases he : st._isEditor <;> simp [hc, he]
  have hcur : (Application._HandleSceneChange st).1._currentScene
      = some (if st._isEditor then t else { t with IsPlaying := true }) := by
    unfold Application._HandleSceneChange
    cases he : st._isEditor <;> simp [h, he]
  have htarget : (Application._HandleSceneChange st).1._targetScene = none := by
    unfold Application._HandleSceneChange
    cases he : st._isEditor <;> simp [he]
  have hnupd : ∀ i, Ev.updateHook i ∉ (Application._HandleSceneChange st).2 := by
    intro i hmem
    rw [htr] at hmem
    rw [List.mem_append, List.mem_append, List.mem_append, List.mem_append,
      List.mem_append] at hmem
    rcases hmem with ((((hu | ha) | hl) | hw) | hp) | hc2
    · revert hu
      by_cases hc' : st._currentScene.isSome = true
      · simp only [hc', if_pos]
        intro hu
        rw [sceneUnloadDispatch_eq] at hu
        exact not_mem_eligibleHookCalls _ _ _ _ (fun j hj => Ev.noConfusion hj)
          (List.mem_reverse.mp hu)
      · simp [hc']
    · simp at ha
    · rw [sceneLoadDispatch_eq] at hl
      exact not_mem_eligibleHookCalls _ _ _ _ (fun j hj => Ev.noConfusion hj) hl
    · simp at hw
    · revert hp
      cases st._isEditor <;> simp
    · simp at hc2
  have hcount1 : ((Application._HandleSceneChange st).2).count Ev.sceneAwake = 1 := by
    rw [htr]
    rw [List.count_append, List.count_append, List.count_append, List.count_append,
      List.count_append]
    have hA : (if st._currentScene.isSome then sceneUnloadDispatch st._layers
        else []).count Ev.sceneAwake = 0 := by
      by_cases hc' : st._currentScene.isSome = true
      · simp only [hc', if_pos]
        rw [List.count_eq_zero]
        intro hmem
        rw [sceneUnloadDispatch_eq] at hmem
        exact not_mem_eligibleHookCalls _ _ _ _ (fun j hj => Ev.noConfusion hj)
          (List.mem_reverse.mp hmem)
      · simp [hc']
    have hC : (sceneLoadDispatch st._layers).count Ev.sceneAwake = 0 := by
      rw [List.count_eq_zero]
      intro hmem
      rw [sceneLoadDispatch_eq] at hmem
      exact not_mem_eligibleHookCalls _ _ _ _ (fun j hj => Ev.noConfusion hj) hmem
    have hE : (if st._isEditor then ([] : List Ev)
        else [Ev.setScenePlaying]).count Ev.sceneAwake = 0 := by
      cases st._isEditor <;> simp
    rw [hA, hC, hE]
    simp
  refine ⟨htr, hcur, htarget, ?_, ?_, hnupd, ?_, ?_⟩
  · intro he
    rw [hcur, he]
    simp
  · rw [frameStep_eq, hswap]
    refine ⟨(if inp.windowShouldClose then [Ev.clearRunningFlag] else [])
      ++ [Ev.timingUpdate] ++ (corePhasesStep (phasesState inp st)).2
      ++ [Ev.inputEndFrame, Ev.imguiEndFrame, Ev.swapBuffers], ?_⟩
    simp
  · rw [htr]
    simp
  · rw [frameStep_eq, hswap]
    rw [List.count_append, List.count_append, List.count_append, List.count_append]
    rw [hcount1, sceneAwake_count_closeEvs]
    rw [List.count_eq_zero.mpr (sceneAwake_not_mem_corePhases _)]
    simp

/-- Witness for C3 at a concrete staged scene. -/
theorem c3_scene_transition_witness :
    ({ demoState with _targetScene := some { sid := 3, IsPlaying := false } }
        : AppState)._targetScene = some { sid := 3, IsPlaying := false }
    ∧ (Application._HandleSceneChange
        { demoState with _targetScene := some { sid := 3, IsPlaying := false } }).1._currentScene
        = some (if ({ demoState with
            _targetScene := some { sid := 3, IsPlaying := false } } : AppState)._isEditor
          then { sid := 3, IsPlaying := false }
          else { sid := 3, IsPlaying := true }) :=
  ⟨rfl,
   (c3_scene_transition
      { demoState with _targetScene := some { sid := 3, IsPlaying := false } }
      { windowShouldClose := false, dt := 1, stagedScene := none,
        reloadRequested := false, reloadScene := none, escapeDown := false }
      { sid := 3, IsPlaying := false } rfl).2.1⟩

/-! ## Timing through the frame -/

theorem handleSceneChange_timing (st : AppState) :
    (Application._HandleSceneChange st).1.timing = st.timing := by
  unfold Application._HandleSceneChange
  cases st._isEditor <;> simp

theorem sceneSwapStep_timing (st : AppState) :
    (sceneSwapStep st).1.timing = st.timing := by
  unfold sceneSwapStep
  by_cases h : st._targetScene.isSome = true
  · simp only [h, if_pos]
    exact handleSceneChange_timing st
  · simp [h]

theorem gameInputStep_timing (inp : FrameInput) (st : AppState) :
    (gameInputStep inp st).timing = st.timing := by
  unfold gameInputStep
  cases inp.stagedScene <;> cases inp.escapeDown <;> cases inp.reloadRequested <;>
    cases inp.reloadScene <;> simp

theorem corePhasesStep_timing (st : AppState) :
    (corePhasesStep st).1.timing = st.timing := by
  unfold corePhasesStep
  by_cases h : st._currentScene.isSome = true <;> simp [h]

/-- Each frame applies exactly the timing block once to the `Timing`
singleton; no other step of the frame touches it. -/
theorem frameStep_timing (inp : FrameInput) (st : AppState) :
    (frameStep inp st).1.timing = timingStep inp.dt st.timing := by
  rw [frameStep_eq]
  show (corePhasesStep (phasesState inp st)).1.timing = _
  rw [corePhasesStep_timing]
  unfold phasesState
  show timingStep inp.dt (preTimingState inp st).timing = _
  unfold preTimingState
  cases h : inp.windowShouldClose
  · rw [if_neg (by simp [h])]
    rw [gameInputStep_timing, sceneSwapStep_timing]
  · rw [if_pos (by simp [h])]
    show timingStep inp.dt (gameInputStep inp (sceneSwapStep st).1).timing = _
    rw [gameInputStep_timing, sceneSwapStep_timing]

/-! ## C5: timing sums -/

theorem timingFold_spec (ds : List ℚ) (t : Timing) :
    ((ds.foldl (fun t dt => timingStep dt t) t)._timeScale = t._timeScale)
    ∧ ((ds.foldl (fun t dt => timingStep dt t) t)._timeSinceAppLoad
        = t._timeSinceAppLoad + ds.sum * t._timeScale)
    ∧ ((ds.foldl (fun t dt => timingStep dt t) t)._unscaledTimeSinceAppLoad
        = t._unscaledTimeSinceAppLoad + ds.sum)
    ∧ ((ds.foldl (fun t dt => timingStep dt t) t)._timeSinceSceneLoad
        = t._timeSinceSceneLoad + ds.sum * t._timeScale)
    ∧ ((ds.foldl (fun t dt => timingStep dt t) t)._unscaledTimeSinceSceneLoad
        = t._unscaledTimeSinceSceneLoad + ds.sum) := by
  induction ds generalizing t with
  | nil => simp
  | cons d ds ih =>
    simp only [List.foldl_cons, List.sum_cons]
    obtain ⟨h1, h2, h3, h4, h5⟩ := ih (timingStep d t)
    refine ⟨?_, ?_, ?_, ?_, ?_⟩
    · rw [h1]; simp only [timingStep]
    · rw [h2]; simp only [timingStep]; ring
    · rw [h3]; simp only [timingStep]; ring
    · rw [h4]; simp only [timingStep]; ring
    · rw [h5]; simp only [timingStep]; ring

theorem timingFold_delta (ds : List ℚ) (t : Timing)
    (h : t._deltaTime = t._unscaledDeltaTime * t._timeScale) :
    (ds.foldl (fun t dt => timingStep dt t) t)._deltaTime
      = (ds.foldl (fun t dt => timingStep dt t) t)._unscaledDeltaTime
        * (ds.foldl (fun t dt => timingStep dt t) t)._timeScale := by
  induction ds generalizing t with
  | nil => exact h
  | cons d ds ih =>
    simp only [List.foldl_cons]
    exact ih _ (by simp [timingStep])

/-- C5: over any run of N frames with unscaled wall-clock deltas d1..dN and a
fixed time scale s, after the N-th frame's timing update
`timeSinceAppLoad = (d1+...+dN)*s` and `unscaledTimeSinceAppLoad = d1+...+dN`
(exact rational arithmetic stands in for the source's floats), on every frame
`deltaTime = unscaledDeltaTime * timeScale`, and each `frameStep` applies the
timing block exactly once. -/
theorem c5_timing_sums (ds : List ℚ) (s : ℚ) :
    (ds.foldl (fun t dt => timingStep dt t) (timingInit s))._timeSinceAppLoad = ds.sum * s
    ∧ (ds.foldl (fun t dt => timingStep dt t) (timingInit s))._unscaledTimeSinceAppLoad
        = ds.sum
    ∧ (∀ n : ℕ,
        ((ds.take n).foldl (fun t dt => timingStep dt t) (timingInit s))._deltaTime
          = ((ds.take n).foldl (fun t dt => timingStep dt t) (timingInit s))._unscaledDeltaTime
            * ((ds.take n).foldl (fun t dt => timingStep dt t) (timingInit s))._timeScale)
    ∧ (∀ (inp : FrameInput) (st : AppState),
        (frameStep inp st).1.timing = timingStep inp.dt st.timing) := by
  obtain ⟨h1, h2, h3, h4, h5⟩ := timingFold_spec ds (timingInit s)
  refine ⟨?_, ?_, ?_, frameStep_timing⟩
  · rw [h2]; simp [timingInit]
  · rw [h3]; simp [timingInit]
  · intro n
    exact timingFold_delta (ds.take n) (timingInit s) (by simp [timingInit])

/-! ## C6: counter monotonicity (and the absent scene-load reset) -/

/-- Counterexample to C6 as stated: in a frame whose scene swap completes
(a staged scene becomes current), the since-scene-load counters are NOT
reset — they continue from their old value 5 to 6 = 5 + dt, while a reset
would leave at most dt = 1. -/
theorem c6_counterexample_no_reset :
    c6State._targetScene.isSome = true
    ∧ (frameStep c6Input c6State).1._currentScene = some { c6Scene with IsPlaying := true }
    ∧ c6State.timing._timeSinceSceneLoad = 5
    ∧ (frameStep c6Input c6State).1.timing._timeSinceSceneLoad = 6
    ∧ (frameStep c6Input c6State).1.timing._unscaledTimeSinceSceneLoad = 6
    ∧ ¬ (frameStep c6Input c6State).1.timing._timeSinceSceneLoad ≤ 1 := by
  have ht : (frameStep c6Input c6State).1.timing = timingStep c6Input.dt c6State.timing :=
    frameStep_timing c6Input c6State
  refine ⟨rfl, rfl, rfl, ?_, ?_, ?_⟩
  · rw [ht]; norm_num [timingStep, c6Input, c6State, demoTiming]
  · rw [ht]; norm_num [timingStep, c6Input, c6State, demoTiming]
  · rw [ht]; norm_num [timingStep, c6Input, c6State, demoTiming]

/-- C6 (amended): all four elapsed counters are monotonically non-decreasing
across a frame given a non-negative delta and non-negative time scale, with
no exception: the scene transition never touches the `Timing` singleton, so
the since-scene-load counters are not reset when a staged scene becomes
current. -/
theorem c6_counters_monotone (st : AppState) (inp : FrameInput)
    (hdt : 0 ≤ inp.dt) (hs : 0 ≤ st.timing._timeScale) :
    st.timing._timeSinceAppLoad ≤ (frameStep inp st).1.timing._timeSinceAppLoad
    ∧ st.timing._unscaledTimeSinceAppLoad
        ≤ (frameStep inp st).1.timing._unscaledTimeSinceAppLoad
    ∧ st.timing._timeSinceSceneLoad ≤ (frameStep inp st).1.timing._timeSinceSceneLoad
    ∧ st.timing._unscaledTimeSinceSceneLoad
        ≤ (frameStep inp st).1.timing._unscaledTimeSinceSceneLoad
    ∧ (∀ st' : AppState, (Application._HandleSceneChange st').1.timing = st'.timing) := by
  rw [frameStep_timing]
  have hprod : 0 ≤ inp.dt * st.timing._timeScale := mul_nonneg hdt hs
  refine ⟨?_, ?_, ?_, ?_, handleSceneChange_timing⟩ <;>
    simp [timingStep] <;> linarith

/-- Witness for the amended C6 at a concrete state and input. -/
theorem c6_counters_monotone_witness :
    ((0 : ℚ) ≤ c6Input.dt ∧ (0 : ℚ) ≤ c6State.timing._timeScale)
    ∧ c6State.timing._timeSinceSceneLoad
        ≤ (frameStep c6Input c6State).1.timing._timeSinceSceneLoad :=
  ⟨⟨by norm_num [c6Input], by norm_num [c6State, demoState, demoTiming]⟩,
   (c6_counters_monotone c6State c6Input (by norm_num [c6Input])
     (by norm_num [c6State, demoState, demoTiming])).2.2.1⟩

/-! ## C9: closing mid-frame skips nothing -/

theorem gameInputStep_close (inp : FrameInput) (b : Bool) (st : AppState) :
    gameInputStep { inp with windowShouldClose := b } st = gameInputStep inp st := rfl

theorem corePhases_isRunning (st : AppState) :
    (corePhasesStep st).1._isRunning = st._isRunning := by
  unfold corePhasesStep
  by_cases h : st._currentScene.isSome = true <;> simp [h]

theorem corePhasesStep_isRunning_false (st : AppState) :
    corePhasesStep { st with _isRunning := false }
      = ({ (corePhasesStep st).1 with _isRunning := false }, (corePhasesStep st).2) := by
  unfold corePhasesStep
  by_cases h : st._currentScene.isSome = true <;> simp [h]

theorem phasesState_close (inp : FrameInput) (st : AppState)
    (hclose : inp.windowShouldClose = true) :
    phasesState inp st
      = { phasesState { inp with windowShouldClose := false } st
          with _isRunning := false } := by
  unfold phasesState preTimingState
  rw [if_pos hclose,
    if_neg (by simp :
      ¬ ({ inp with windowShouldClose := false } : FrameInput).windowShouldClose = true)]
  rfl

theorem runFrames_stopped (inps : List FrameInput) (st : AppState)
    (h : st._isRunning = false) : runFrames inps st = (st, []) := by
  cases inps with
  | nil => rfl
  | cons i rest =>
    unfold runFrames
    simp [h]

/-- C9: when the window requests close during a frame (and `Quit` likewise),
only the running flag is cleared at that point; the remaining state effects
and events of the frame are exactly those of the same frame without the
close request (timing update, the five phases, end-of-frame bookkeeping all
still happen), and the loop exits only at the next top-of-loop check of the
running flag. -/
theorem c9_close_completes_frame (st : AppState) (inp : FrameInput)
    (rest : List FrameInput)
    (hrun : st._isRunning = true) (hclose : inp.windowShouldClose = true) :
    Application.Quit st = { st with _isRunning := false }
    ∧ (frameStep inp st).1
        = { (frameStep { inp with windowShouldClose := false } st).1
            with _isRunning := false }
    ∧ (frameStep inp st).2
        = (sceneSwapStep st).2 ++ [Ev.clearRunningFlag] ++ [Ev.timingUpdate]
          ++ (corePhasesStep (phasesState { inp with windowShouldClose := false } st)).2
          ++ [Ev.inputEndFrame, Ev.imguiEndFrame, Ev.swapBuffers]
    ∧ (frameStep { inp with windowShouldClose := false } st).2
        = (sceneSwapStep st).2 ++ [Ev.timingUpdate]
          ++ (corePhasesStep (phasesState { inp with windowShouldClose := false } st)).2
          ++ [Ev.inputEndFrame, Ev.imguiEndFrame, Ev.swapBuffers]
    ∧ (frameStep inp st).1._isRunning = false
    ∧ runFrames (inp :: rest) st = ((frameStep inp st).1, (frameStep inp st).2) := by
  have hphase := phasesState_close inp st hclose
  have hrunfalse : (frameStep inp st).1._isRunning = false := by
    rw [frameStep_eq]
    show (corePhasesStep (phasesState inp st)).1._isRunning = false
    rw [corePhases_isRunning, hphase]
  refine ⟨rfl, ?_, ?_, ?_, hrunfalse, ?_⟩
  · rw [frameStep_eq, frameStep_eq]
    show (corePhasesStep (phasesState inp st)).1 = _
    rw [hphase, corePhasesStep_isRunning_false]
  · rw [frameStep_eq]
    show (sceneSwapStep st).2
        ++ (if inp.windowShouldClose then [Ev.clearRunningFlag] else [])
        ++ [Ev.timingUpdate] ++ (corePhasesStep (phasesState inp st)).2
        ++ [Ev.inputEndFrame, Ev.imguiEndFrame, Ev.swapBuffers] = _
    rw [hphase, corePhasesStep_isRunning_false, hclose]
    simp
  · rw [frameStep_eq]
    simp
  · show (if st._isRunning = true then
        ((runFrames rest (frameStep inp st).1).1,
         (frameStep inp st).2 ++ (runFrames rest (frameStep inp st).1).2)
      else (st, [])) = _
    rw [if_pos hrun, runFrames_stopped rest _ hrunfalse]
    simp

/-- Witness for C9 at a concrete state with a close request. -/
theorem c9_close_completes_frame_witness :
    (demoState._isRunning = true ∧ closeInput.windowShouldClose = true)
    ∧ (frameStep closeInput demoState).1._isRunning = false
    ∧ runFrames [closeInput] demoState
        = ((frameStep closeInput demoState).1, (frameStep closeInput demoState).2) :=
  ⟨⟨rfl, rfl⟩,
   (c9_close_completes_frame demoState closeInput [] rfl rfl).2.2.2.2.1,
   (c9_close_completes_frame demoState closeInput [] rfl rfl).2.2.2.2.2⟩

/-! ## C10: the five phases need a current scene -/

theorem handleSceneChange_currentScene_isSome (st : AppState)
    (h : st._targetScene.isSome = true) :
    (Application._HandleSceneChange st).1._currentScene.isSome = true := by
  unfold Application._HandleSceneChange
  cases ht : st._targetScene with
  | none => rw [ht] at h; simp at h
  | some t => cases he : st._isEditor <;> simp [ht, he]

theorem gameInputStep_currentScene_none (inp : FrameInput) (st : AppState)
    (h : st._currentScene = none) :
    (gameInputStep inp st)._currentScene = none := by
  unfold gameInputStep
  cases inp.stagedScene <;> cases inp.escapeDown <;> cases inp.reloadRequested <;>
    cases inp.reloadScene <;> simp [h]

/-- C10: in every frame in which the current scene pointer is null after the
scene-swap step, none of the five per-frame dispatchers (Update, LateUpdate,
PreRender, RenderScene, PostRender) is invoked — the core-phase block is a
no-op and the frame trace contains no per-frame phase hook. -/
theorem c10_phases_need_scene (st : AppState) (inp : FrameInput)
    (h : (sceneSwapStep st).1._currentScene = none) :
    corePhasesStep (phasesState inp st) = (phasesState inp st, [])
    ∧ ∀ e ∈ (frameStep inp st).2, isPerFrameHook e = false := by
  have htarget : st._targetScene = none := by
    by_cases hT : st._targetScene.isSome = true
    · exfalso
      have hsome := handleSceneChange_currentScene_isSome st hT
      unfold sceneSwapStep at h
      rw [if_pos hT] at h
      rw [h] at hsome
      simp at hsome
    · simpa using hT
  have hswapeq : sceneSwapStep st = (st, []) := by
    unfold sceneSwapStep
    rw [htarget]
    simp
  have hcur : st._currentScene = none := by
    rw [hswapeq] at h
    exact h
  have hphasecur : (phasesState inp st)._currentScene = none := by
    have h1 : (phasesState inp st)._currentScene
        = (gameInputStep inp (sceneSwapStep st).1)._currentScene := by
      unfold phasesState preTimingState
      by_cases hc : inp.windowShouldClose = true <;> simp [hc]
    rw [h1, hswapeq]
    exact gameInputStep_currentScene_none inp st hcur
  have hcore : corePhasesStep (phasesState inp st) = (phasesState inp st, []) := by
    unfold corePhasesStep
    rw [hphasecur]
    simp
  refine ⟨hcore, ?_⟩
  intro e hmem
  rw [frameStep_eq, hswapeq, hcore] at hmem
  by_cases hc : inp.windowShouldClose = true
  · simp [hc] at hmem
    rcases hmem with rfl | rfl | rfl | rfl | rfl <;> rfl
  · simp [hc] at hmem
    rcases hmem with rfl | rfl | rfl | rfl <;> rfl

/-- Witness for C10 at a concrete sceneless state. -/
theorem c10_phases_need_scene_witness :
    (sceneSwapStep demoState).1._currentScene = none
    ∧ ∀ e ∈ (frameStep quietInput demoState).2, isPerFrameHook e = false :=
  ⟨rfl, (c10_phases_need_scene demoState quietInput rfl).2⟩

/-! ## Settings: JSON objects and `merge_patch` -/

theorem lookupField_setField_self (tf : List (String × Json)) (k : String) (v : Json) :
    lookupField (setField tf k v) k = some v := by
  induction tf with
  | nil => simp [setField, lookupField]
  | cons a rest ih =>
    obtain ⟨k', v'⟩ := a
    by_cases h : k' = k
    · simp [setField, lookupField, h]
    · simp [setField, lookupField, h, ih]

theorem lookupField_setField_ne (tf : List (String × Json)) (k' k : String) (v : Json)
    (h : k' ≠ k) : lookupField (setField tf k' v) k = lookupField tf k := by
  induction tf with
  | nil => simp [setField, lookupField, h]
  | cons a rest ih =>
    obtain ⟨ka, va⟩ := a
    by_cases hka : ka = k'
    · subst hka
      simp [setField, lookupField, h]
    · simp [setField, lookupField, hka, ih]

theorem lookupField_erase_ne (tf : List (String × Json)) (k' k : String)
    (h : k' ≠ k) : lookupField (eraseField tf k') k = lookupField tf k := by
  induction tf with
  | nil => simp [eraseField, lookupField]
  | cons a rest ih =>
    obtain ⟨ka, va⟩ := a
    by_cases hka : ka = k'
    · subst hka
      have : ka ≠ k := h
      simp [eraseField, lookupField, this, List.filter_cons] at ih ⊢
      exact ih
    · by_cases hkak : ka = k
      · subst hkak
        simp [eraseField, lookupField, hka, List.filter_cons]
      · simp [eraseField, lookupField, hka, hkak, List.filter_cons] at ih ⊢
        exact ih

theorem lookupField_none_of_not_mem (pf : List (String × Json)) (k : String)
    (h : k ∉ pf.map Prod.fst) : lookupField pf k = none := by
  induction pf with
  | nil => rfl
  | cons a rest ih =>
    obtain ⟨ka, va⟩ := a
    simp only [List.map_cons, List.mem_cons] at h
    push_neg at h
    rw [lookupField, if_neg (fun hh => h.1 hh.symm)]
    exact ih h.2

theorem mergeFields_lookup_absent (pf : List (String × Json)) :
    ∀ (tf : List (String × Json)) (k : String),
      lookupField pf k = none →
      lookupField (Json.mergeFields tf pf) k = lookupField tf k := by
  induction pf with
  | nil =>
    intro tf k _
    simp [Json.mergeFields]
  | cons a rest ih =>
    intro tf k h
    obtain ⟨k', v'⟩ := a
    have hne : k' ≠ k := by
      intro hkk
      rw [lookupField, if_pos hkk] at h
      exact Option.noConfusion h
    have hrest : lookupField rest k = none := by
      rw [lookupField, if_neg hne] at h
      exact h
    cases v' with
    | null =>
      simp only [Json.mergeFields]
      rw [ih (eraseField tf k') k hrest, lookupField_erase_ne tf k' k hne]
    | b bv =>
      simp only [Json.mergeFields]
      rw [ih _ k hrest, lookupField_setField_ne tf k' k _ hne]
    | num n =>
      simp only [Json.mergeFields]
      rw [ih _ k hrest, lookupField_setField_ne tf k' k _ hne]
    | str s =>
      simp only [Json.mergeFields]
      rw [ih _ k hrest, lookupField_setField_ne tf k' k _ hne]
    | obj fs =>
      simp only [Json.mergeFields]
      rw [ih _ k hrest, lookupField_setField_ne tf k' k _ hne]

theorem mergeFields_lookup_present (pf : List (String × Json)) :
    ∀ (tf : List (String × Json)) (k : String) (v : Json),
      (pf.map Prod.fst).Nodup → lookupField pf k = some v → v ≠ Json.null →
      lookupField (Json.mergeFields tf pf) k
        = some (Json.mergePatch ((lookupField tf k).getD Json.null) v) := by
  induction pf with
  | nil =>
    intro tf k v _ h _
    simp [lookupField] at h
  | cons a rest ih =>
    intro tf k v hnd h hv
    obtain ⟨k', v'⟩ := a
    simp only [List.map_cons, List.nodup_cons] at hnd
    by_cases hk : k' = k
    · subst hk
      rw [lookupField, if_pos rfl] at h
      have hveq : v' = v := by injection h
      subst hveq
      have hrest : lookupField rest k' = none :=
        lookupField_none_of_not_mem rest k' hnd.1
      cases v' with
      | null => exact absurd rfl hv
      | b bv =>
        simp only [Json.mergeFields]
        rw [mergeFields_lookup_absent rest _ k' hrest, lookupField_setField_self]
      | num n =>
        simp only [Json.mergeFields]
        rw [mergeFields_lookup_absent rest _ k' hrest, lookupField_setField_self]
      | str s =>
        simp only [Json.mergeFields]
        rw [mergeFields_lookup_absent rest _ k' hrest, lookupField_setField_self]
      | obj fs =>
        simp only [Json.mergeFields]
        rw [mergeFields_lookup_absent rest _ k' hrest, lookupField_setField_self]
    · rw [lookupField, if_neg hk] at h
      cases v' with
      | null =>
        simp only [Json.mergeFields]
        rw [ih _ k v hnd.2 h hv, lookupField_erase_ne tf k' k hk]
      | b bv =>
        simp only [Json.mergeFields]
        rw [ih _ k v hnd.2 h hv, lookupField_setField_ne tf k' k _ hk]
      | num n =>
        simp only [Json.mergeFields]
        rw [ih _ k v hnd.2 h hv, lookupField_setField_ne tf k' k _ hk]
      | str s =>
        simp only [Json.mergeFields]
        rw [ih _ k v hnd.2 h hv, lookupField_setField_ne tf k' k _ hk]
      | obj fs =>
        simp only [Json.mergeFields]
        rw [ih _ k v hnd.2 h hv, lookupField_setField_ne tf k' k _ hk]

theorem setKey_isObj (j : Json) (k : String) (v : Json) :
    ∃ fs, j.setKey k v = Json.obj fs := by
  cases j <;> exact ⟨_, rfl⟩

theorem defaults_isObj (layers : List ApplicationLayer) :
    ∃ fs, Application._GetDefaultAppSettings layers = Json.obj fs :=
  setKey_isObj _ "window_height" (.num 1080)

/-- C7: settings resolution starts from the aggregated compiled-in defaults;
a persisted document is merge-patched over them (keys present in the
document override, keys absent retain the compiled default; an empty
document leaves the defaults unchanged; a document holding only
`window_width` changes only that key); when no persisted document exists the
default result is written out immediately. -/
theorem c7_settings_resolution (layers : List ApplicationLayer) (blob : Json)
    (tf pf : List (String × Json)) (k : String) (v : Json) :
    Application._ConfigureSettings layers none
        = (Application._GetDefaultAppSettings layers, true)
    ∧ Application._ConfigureSettings layers (some blob)
        = ((Application._GetDefaultAppSettings layers).mergePatch blob, false)
    ∧ (Application._ConfigureSettings layers (some (Json.obj []))).1
        = Application._GetDefaultAppSettings layers
    ∧ (lookupField pf k = none →
        (Json.mergePatch (Json.obj tf) (Json.obj pf)).lookup k
          = (Json.obj tf).lookup k)
    ∧ ((pf.map Prod.fst).Nodup → lookupField pf k = some v → v ≠ Json.null →
        (Json.mergePatch (Json.obj tf) (Json.obj pf)).lookup k
          = some (Json.mergePatch ((lookupField tf k).getD Json.null) v))
    ∧ (Application._ConfigureSettings [namedLayer, unnamedLayer]
          (some (Json.obj [("window_width", Json.num 1280)]))).1
        = Json.obj [("RenderLayer", Json.obj [("shadow_resolution", Json.num 1024)]),
                    ("global_volume", Json.num 3),
                    ("window_width", Json.num 1280),
                    ("window_height", Json.num 1080)] := by
  refine ⟨rfl, rfl, ?_, ?_, ?_, ?_⟩
  · obtain ⟨fs, hfs⟩ := defaults_isObj layers
    show (Application._GetDefaultAppSettings layers).mergePatch (Json.obj []) = _
    rw [hfs]
    simp [Json.mergePatch, Json.mergeFields]
  · intro h
    simp only [Json.mergePatch, Json.lookup]
    exact mergeFields_lookup_absent pf tf k h
  · intro hnd h hv
    simp only [Json.mergePatch, Json.lookup]
    exact mergeFields_lookup_present pf tf k v hnd h hv
  · simp [Application._ConfigureSettings, Application._GetDefaultAppSettings,
      namedLayer, unnamedLayer, Json.setKey, Json.mergePatch, Json.mergeFields,
      setField, lookupField, eraseField]

/-- Witness for C7's implications at concrete documents. -/
theorem c7_settings_resolution_witness :
    (lookupField [("window_width", Json.num 1280)] "other" = none
      ∧ (Json.mergePatch (Json.obj [("other", Json.num 1)])
            (Json.obj [("window_width", Json.num 1280)])).lookup "other"
          = (Json.obj [("other", Json.num 1)]).lookup "other")
    ∧ (((([("window_width", Json.num 1280)] : List (String × Json))).map Prod.fst).Nodup
      ∧ (Json.mergePatch (Json.obj [("window_width", Json.num 1920)])
            (Json.obj [("window_width", Json.num 1280)])).lookup "window_width"
          = some (Json.mergePatch
              ((lookupField [("window_width", Json.num 1920)] "window_width").getD
                Json.null)
              (Json.num 1280))) :=
  ⟨⟨rfl,
    (c7_settings_resolution [] (Json.obj []) [("other", Json.num 1)]
        [("window_width", Json.num 1280)] "other" (Json.num 1280)).2.2.2.1 rfl⟩,
   ⟨by simp,
    (c7_settings_resolution [] (Json.obj []) [("window_width", Json.num 1920)]
        [("window_width", Json.num 1280)] "window_width"
        (Json.num 1280)).2.2.2.2.1 (by simp) rfl
      (fun hh => Json.noConfusion hh)⟩⟩

/-! ## C8: LoadScene -/

/-- C8: `LoadScene(path)` returns false and changes nothing (current scene
unchanged, no target staged, no manifest loaded) when the scene document
does not exist; a missing sidecar manifest (`<stem>-manifest.json`) is
non-fatal and merely skipped, after which the scene itself is still loaded
and staged as the target, and the call returns whether the loaded scene was
non-null. -/
theorem c8_load_scene (fs : FileSystem) (st : AppState) (path : String) :
    (fs.pathExists path = false →
      Application.LoadScenePath fs st path = (false, st))
    ∧ (fs.pathExists path = true →
        fs.pathExists (pathStem path ++ "-manifest.json") = false →
        ((Application.LoadScenePath fs st path).2.manifestsLoaded = st.manifestsLoaded
          ∧ (Application.LoadScenePath fs st path).2._targetScene = fs.sceneLoad path
          ∧ (Application.LoadScenePath fs st path).1 = (fs.sceneLoad path).isSome
          ∧ (Application.LoadScenePath fs st path).2._currentScene = st._currentScene)) := by
  constructor
  · intro h
    unfold Application.LoadScenePath
    rw [if_neg (by simp [h])]
  · intro h hman
    unfold Application.LoadScenePath Application.LoadSceneTarget
    rw [if_pos h]
    simp [hman]

/-- Witness for C8 at a concrete file system. -/
theorem c8_load_scene_witness :
    (demoFs.pathExists "missing.json" = false
      ∧ Application.LoadScenePath demoFs demoState "missing.json" = (false, demoState))
    ∧ (demoFs.pathExists "level1.json" = true
      ∧ demoFs.pathExists (pathStem "level1.json" ++ "-manifest.json") = false
      ∧ (Application.LoadScenePath demoFs demoState "level1.json").2._targetScene
          = demoFs.sceneLoad "level1.json"
      ∧ (Application.LoadScenePath demoFs demoState "level1.json").1
          = (demoFs.sceneLoad "level1.json").isSome) :=
  ⟨⟨by decide, (c8_load_scene demoFs demoState "missing.json").1 (by decide)⟩,
   ⟨by decide, by decide,
    ((c8_load_scene demoFs demoState "level1.json").2 (by decide) (by decide)).2.1,
    ((c8_load_scene demoFs demoState "level1.json").2 (by decide) (by decide)).2.2.1⟩⟩

end Resonance
